import Mathlib

/-!
Shallow embedding of `dynaport` (src/src/lib.rs), a library returning TCP
ports of the registered range [1024, 49151] or the dynamic range
[49152, 65535] that are not currently in use.

The only effect the Rust code performs is `TcpListener::bind("127.0.0.1:p")`,
whose outcome is immediately collapsed to a boolean (`.is_ok()`).  We model
the operating system's bind facility as an abstract function
`bind : Nat → Except String Unit` (`.ok ()` = the bind succeeded, `.error e` =
any bind failure such as "port in use" or "permission denied"), and every
query function takes it as an explicit parameter.  The random shuffle of
`random_*_port` is modelled by passing the shuffled list explicitly; theorems
quantify over every permutation of the range.
-/

namespace Dynaport

/-- The Registered Ports (1024-49151); `(1024..=49151).collect()`.
`48128 = 49151 - 1024 + 1`. -/
def REGISTERED_PORTS_RANGE : List Nat := List.range' 1024 48128

/-- The Dynamic and/or Private Ports (49152-65535); `(49152..=65535).collect()`.
`16384 = 65535 - 49152 + 1`. -/
def DYNAMIC_PORTS_RANGE : List Nat := List.range' 49152 16384

/-- `enum DynaportError { NotEnoughPorts { wanted: usize, got: usize } }` -/
inductive DynaportError where
  | NotEnoughPorts (wanted : Nat) (got : Nat)
deriving DecidableEq

/-- `fn is_available(port: usize) -> bool { TcpListener::bind(...).is_ok() }` -/
def is_available (bind : Nat → Except String Unit) (port : Nat) : Bool :=
  (bind port).isOk

/-- The scan loop shared by all single-port queries:
`for port in ports { if is_available(port) { return Some(port); } } None`. -/
def first_available (avail : Nat → Bool) : List Nat → Option Nat
  | [] => none
  | port :: rest => if avail port then some port else first_available avail rest

/-- `random_registered_port`: the range is cloned and shuffled, then scanned;
the shuffled clone is the explicit argument `shuffled_ports`. -/
def random_registered_port (bind : Nat → Except String Unit)
    (shuffled_ports : List Nat) : Option Nat :=
  first_available (is_available bind) shuffled_ports

/-- `lowest_registered_port`: scans `REGISTERED_PORTS_RANGE` in order. -/
def lowest_registered_port (bind : Nat → Except String Unit) : Option Nat :=
  first_available (is_available bind) REGISTERED_PORTS_RANGE

/-- `highest_registered_port`: scans `REGISTERED_PORTS_RANGE.iter().rev()`. -/
def highest_registered_port (bind : Nat → Except String Unit) : Option Nat :=
  first_available (is_available bind) REGISTERED_PORTS_RANGE.reverse

/-- `random_dynamic_port`, shuffle passed explicitly as in
`random_registered_port`. -/
def random_dynamic_port (bind : Nat → Except String Unit)
    (shuffled_ports : List Nat) : Option Nat :=
  first_available (is_available bind) shuffled_ports

/-- `lowest_dynamic_port`: scans `DYNAMIC_PORTS_RANGE` in order. -/
def lowest_dynamic_port (bind : Nat → Except String Unit) : Option Nat :=
  first_available (is_available bind) DYNAMIC_PORTS_RANGE

/-- `highest_dynamic_port`: scans `DYNAMIC_PORTS_RANGE.iter().rev()`. -/
def highest_dynamic_port (bind : Nat → Except String Unit) : Option Nat :=
  first_available (is_available bind) DYNAMIC_PORTS_RANGE.reverse

/-- The loop shared by the four `*_n_*_ports` functions, with `ports` the
`Vec` accumulator:
```
for port in range {
  if ports.len() == number_of_ports { return Ok(ports); }
  if TcpListener::bind(...).is_ok() { ports.push(*port); }
}
Err(DynaportError::NotEnoughPorts { wanted: number_of_ports, got: ports.len() })
```
Note the length test happens only at the top of an iteration: after the loop
body of the range's last element, the `Err` branch is taken unconditionally. -/
def collect_n_ports (avail : Nat → Bool) (number_of_ports : Nat)
    (ports : List Nat) : List Nat → Except DynaportError (List Nat)
  | [] => .error (.NotEnoughPorts number_of_ports ports.length)
  | port :: rest =>
    if ports.length = number_of_ports then .ok ports
    else if avail port then
      collect_n_ports avail number_of_ports (ports ++ [port]) rest
    else
      collect_n_ports avail number_of_ports ports rest

/-- `lowest_n_registered_ports(number_of_ports)`. -/
def lowest_n_registered_ports (bind : Nat → Except String Unit)
    (number_of_ports : Nat) : Except DynaportError (List Nat) :=
  collect_n_ports (fun port => (bind port).isOk) number_of_ports []
    REGISTERED_PORTS_RANGE

/-- `highest_n_registered_ports(number_of_ports)`: same loop over
`REGISTERED_PORTS_RANGE.iter().rev()`. -/
def highest_n_registered_ports (bind : Nat → Except String Unit)
    (number_of_ports : Nat) : Except DynaportError (List Nat) :=
  collect_n_ports (fun port => (bind port).isOk) number_of_ports []
    REGISTERED_PORTS_RANGE.reverse

/-- `lowest_n_dynamic_ports(number_of_ports)`. -/
def lowest_n_dynamic_ports (bind : Nat → Except String Unit)
    (number_of_ports : Nat) : Except DynaportError (List Nat) :=
  collect_n_ports (fun port => (bind port).isOk) number_of_ports []
    DYNAMIC_PORTS_RANGE

/-- `highest_n_dynamic_ports(number_of_ports)`: same loop over
`DYNAMIC_PORTS_RANGE.iter().rev()`. -/
def highest_n_dynamic_ports (bind : Nat → Except String Unit)
    (number_of_ports : Nat) : Except DynaportError (List Nat) :=
  collect_n_ports (fun port => (bind port).isOk) number_of_ports []
    DYNAMIC_PORTS_RANGE.reverse

/-- Instrumentation of `collect_n_ports`: the list of ports on which the loop
actually attempts a `TcpListener::bind` probe, in order.  A probe happens in
exactly the iterations that get past the length test. -/
def collect_n_ports_probes (avail : Nat → Bool) (number_of_ports : Nat)
    (ports : List Nat) : List Nat → List Nat
  | [] => []
  | port :: rest =>
    if ports.length = number_of_ports then []
    else if avail port then
      port :: collect_n_ports_probes avail number_of_ports (ports ++ [port]) rest
    else
      port :: collect_n_ports_probes avail number_of_ports ports rest

/-- Ports probed by `lowest_n_registered_ports`. -/
def lowest_n_registered_ports_probes (bind : Nat → Except String Unit)
    (number_of_ports : Nat) : List Nat :=
  collect_n_ports_probes (fun port => (bind port).isOk) number_of_ports []
    REGISTERED_PORTS_RANGE

/-- Ports probed by `highest_n_registered_ports`. -/
def highest_n_registered_ports_probes (bind : Nat → Except String Unit)
    (number_of_ports : Nat) : List Nat :=
  collect_n_ports_probes (fun port => (bind port).isOk) number_of_ports []
    REGISTERED_PORTS_RANGE.reverse

/-- Ports probed by `lowest_n_dynamic_ports`. -/
def lowest_n_dynamic_ports_probes (bind : Nat → Except String Unit)
    (number_of_ports : Nat) : List Nat :=
  collect_n_ports_probes (fun port => (bind port).isOk) number_of_ports []
    DYNAMIC_PORTS_RANGE

/-- Ports probed by `highest_n_dynamic_ports`. -/
def highest_n_dynamic_ports_probes (bind : Nat → Except String Unit)
    (number_of_ports : Nat) : List Nat :=
  collect_n_ports_probes (fun port => (bind port).isOk) number_of_ports []
    DYNAMIC_PORTS_RANGE.reverse

/-- A system state in which every bind succeeds (no port occupied). -/
def bindAllOk : Nat → Except String Unit := fun _ => .ok ()

/-- A system state in which every bind fails (every port occupied). -/
def bindAllBusy : Nat → Except String Unit := fun _ => .error "in use"

/-- Exactly ports 1024, 1025, 1026 are occupied. -/
def bindBusyLow3 : Nat → Except String Unit := fun port =>
  if port = 1024 ∨ port = 1025 ∨ port = 1026 then .error "in use" else .ok ()

/-- Exactly ports 49149, 49150, 49151 are occupied. -/
def bindBusyHigh3 : Nat → Except String Unit := fun port =>
  if port = 49149 ∨ port = 49150 ∨ port = 49151 then .error "in use" else .ok ()

/-- Only port 49151 (the last registered port) is free. -/
def bindOnly49151 : Nat → Except String Unit := fun port =>
  if port = 49151 then .ok () else .error "in use"

/-- Only port 1024 (the first registered port) is free. -/
def bindOnly1024 : Nat → Except String Unit := fun port =>
  if port = 1024 then .ok () else .error "in use"

end Dynaport

namespace Dynaport

/-! ### Helper lemmas about `first_available` -/

theorem first_available_eq_none_iff (avail : Nat → Bool) (l : List Nat) :
    first_available avail l = none ↔ ∀ p ∈ l, avail p = false := by
  induction l with
  | nil => simp [first_available]
  | cons a rest ih =>
    by_cases h : avail a = true
    · simp [first_available, h]
    · simp only [Bool.not_eq_true] at h
      simp [first_available, h, ih]

theorem first_available_mem (avail : Nat → Bool) (l : List Nat) (p : Nat)
    (h : first_available avail l = some p) : p ∈ l ∧ avail p = true := by
  induction l with
  | nil => simp [first_available] at h
  | cons a rest ih =>
    by_cases ha : avail a = true
    · simp [first_available, ha] at h
      subst h
      exact ⟨List.mem_cons_self a rest, ha⟩
    · simp only [Bool.not_eq_true] at ha
      simp [first_available, ha] at h
      obtain ⟨hm, hav⟩ := ih h
      exact ⟨List.mem_cons_of_mem a hm, hav⟩

theorem first_available_rel (R : Nat → Nat → Prop) (hrefl : ∀ a, R a a)
    (avail : Nat → Bool) :
    ∀ l : List Nat, l.Pairwise R → ∀ p, first_available avail l = some p →
      ∀ q ∈ l, avail q = true → R p q := by
  intro l
  induction l with
  | nil => intro _ p hp; simp [first_available] at hp
  | cons a rest ih =>
    intro hpw p hp q hq hav
    rw [List.pairwise_cons] at hpw
    by_cases ha : avail a = true
    · simp [first_available, ha] at hp
      subst hp
      rcases List.mem_cons.mp hq with rfl | hmem
      · exact hrefl _
      · exact hpw.1 q hmem
    · simp only [Bool.not_eq_true] at ha
      simp [first_available, ha] at hp
      rcases List.mem_cons.mp hq with rfl | hmem
      · rw [ha] at hav; exact absurd hav (by simp)
      · exact ih hpw.2 p hp q hmem hav

theorem first_available_isSome (avail : Nat → Bool) (l : List Nat) (q : Nat)
    (hq : q ∈ l) (hav : avail q = true) :
    ∃ p, first_available avail l = some p := by
  cases hfa : first_available avail l with
  | some p => exact ⟨p, rfl⟩
  | none =>
    rw [first_available_eq_none_iff] at hfa
    rw [hfa q hq] at hav
    exact absurd hav (by simp)

/-! ### Facts about the two ranges -/

theorem registered_pairwise_le : REGISTERED_PORTS_RANGE.Pairwise (· ≤ ·) :=
  List.pairwise_le_range' 1024 48128

theorem dynamic_pairwise_le : DYNAMIC_PORTS_RANGE.Pairwise (· ≤ ·) :=
  List.pairwise_le_range' 49152 16384

theorem mem_registered_iff (p : Nat) :
    p ∈ REGISTERED_PORTS_RANGE ↔ 1024 ≤ p ∧ p ≤ 49151 := by
  unfold REGISTERED_PORTS_RANGE
  rw [List.mem_range'_1]
  omega

theorem mem_dynamic_iff (p : Nat) :
    p ∈ DYNAMIC_PORTS_RANGE ↔ 49152 ≤ p ∧ p ≤ 65535 := by
  unfold DYNAMIC_PORTS_RANGE
  rw [List.mem_range'_1]
  omega

theorem registered_reverse_pairwise_ge :
    REGISTERED_PORTS_RANGE.reverse.Pairwise (fun a b => b ≤ a) :=
  List.pairwise_reverse.mpr registered_pairwise_le

theorem dynamic_reverse_pairwise_ge :
    DYNAMIC_PORTS_RANGE.reverse.Pairwise (fun a b => b ≤ a) :=
  List.pairwise_reverse.mpr dynamic_pairwise_le

theorem registered_ne_nil : REGISTERED_PORTS_RANGE ≠ [] := by
  unfold REGISTERED_PORTS_RANGE
  intro h
  have := List.length_range' 1024 1 48128
  rw [h] at this
  simp at this

theorem dynamic_ne_nil : DYNAMIC_PORTS_RANGE ≠ [] := by
  unfold DYNAMIC_PORTS_RANGE
  intro h
  have := List.length_range' 49152 1 16384
  rw [h] at this
  simp at this

/-! ### Helper lemmas about `collect_n_ports` -/

/-- With `number_of_ports = 0` the very first iteration takes the
`ports.len() == number_of_ports` early return, before any bind probe. -/
theorem collect_n_ports_zero (avail : Nat → Bool) (l : List Nat)
    (hl : l ≠ []) : collect_n_ports avail 0 [] l = .ok [] := by
  cases l with
  | nil => exact absurd rfl hl
  | cons a rest => simp [collect_n_ports]

/-- With `number_of_ports = 0` no port is ever probed. -/
theorem collect_n_ports_probes_zero (avail : Nat → Bool) (l : List Nat) :
    collect_n_ports_probes avail 0 [] l = [] := by
  cases l with
  | nil => simp [collect_n_ports_probes]
  | cons a rest => simp [collect_n_ports_probes]

/-- When fewer available ports remain in the scan than are still needed, the
loop pushes every available port and finally falls through to the error,
reporting everything it accumulated. -/
theorem collect_n_ports_not_enough (avail : Nat → Bool) (n : Nat) :
    ∀ (l acc : List Nat), acc.length + l.countP avail < n →
      collect_n_ports avail n acc l =
        .error (.NotEnoughPorts n (acc.length + l.countP avail)) := by
  intro l
  induction l with
  | nil =>
    intro acc h
    simp [collect_n_ports]
  | cons a rest ih =>
    intro acc h
    rw [List.countP_cons] at h
    have hlen : acc.length ≠ n := by omega
    by_cases ha : avail a = true
    · have h' : (acc ++ [a]).length + rest.countP avail < n := by
        simp [ha] at h
        simp
        omega
      have heq := ih (acc ++ [a]) h'
      simp [collect_n_ports, hlen, ha, heq, List.countP_cons]
      omega
    · simp only [Bool.not_eq_true] at ha
      have h' : acc.length + rest.countP avail < n := by
        simp [ha] at h
        omega
      have := ih acc h'
      simp [collect_n_ports, hlen, ha, this, List.countP_cons]

/-- The accumulator never grows past `number_of_ports`, so an error always
reports `got ≤ wanted`. -/
theorem collect_n_ports_got_le (avail : Nat → Bool) (n : Nat) :
    ∀ (l acc : List Nat), acc.length ≤ n →
      ∀ w g, collect_n_ports avail n acc l = .error (.NotEnoughPorts w g) →
        g ≤ w := by
  intro l
  induction l with
  | nil =>
    intro acc hacc w g h
    simp [collect_n_ports] at h
    omega
  | cons a rest ih =>
    intro acc hacc w g h
    by_cases hlen : acc.length = n
    · simp [collect_n_ports, hlen] at h
    · by_cases ha : avail a = true
      · refine ih (acc ++ [a]) ?_ w g ?_
        · simp; omega
        · simpa [collect_n_ports, hlen, ha] using h
      · simp only [Bool.not_eq_true] at ha
        refine ih acc hacc w g ?_
        simpa [collect_n_ports, hlen, ha] using h

/-- The off-by-one at the end of the range: when exactly one more port is
needed, every earlier port of the remaining scan is unavailable and the final
element is available, the push happens in the last iteration, after which the
loop ends and the `Err` branch reports `got = wanted`. -/
theorem collect_n_ports_last_exact (avail : Nat → Bool) (n a : Nat)
    (ha : avail a = true) :
    ∀ (l acc : List Nat), acc.length + 1 = n → (∀ p ∈ l, avail p = false) →
      collect_n_ports avail n acc (l ++ [a]) =
        .error (.NotEnoughPorts n n) := by
  intro l
  induction l with
  | nil =>
    intro acc hacc _
    have hlen : acc.length ≠ n := by omega
    have : (acc ++ [a]).length = n := by simp; omega
    simp [collect_n_ports, hlen, ha, this]
  | cons b rest ih =>
    intro acc hacc hun
    have hb : avail b = false := hun b (List.mem_cons_self b rest)
    have hlen : acc.length ≠ n := by omega
    have := ih acc hacc (fun p hp => hun p (List.mem_cons_of_mem b hp))
    simp only [List.cons_append]
    simp [collect_n_ports, hlen, hb, this]

/-! ### Concrete system states: evaluation facts derived from the
characterization lemmas (the ranges are too long to normalize directly). -/

theorem is_available_busyLow3_false (p : Nat)
    (h : p = 1024 ∨ p = 1025 ∨ p = 1026) :
    is_available bindBusyLow3 p = false := by
  simp [is_available, bindBusyLow3, h, Except.isOk, Except.toBool]

theorem is_available_busyHigh3_false (p : Nat)
    (h : p = 49149 ∨ p = 49150 ∨ p = 49151) :
    is_available bindBusyHigh3 p = false := by
  simp [is_available, bindBusyHigh3, h, Except.isOk, Except.toBool]

theorem lowest_registered_allOk :
    lowest_registered_port bindAllOk = some 1024 := by
  have hmem : (1024 : Nat) ∈ REGISTERED_PORTS_RANGE :=
    (mem_registered_iff 1024).mpr (by omega)
  obtain ⟨p, hp⟩ := first_available_isSome (is_available bindAllOk)
    REGISTERED_PORTS_RANGE 1024 hmem rfl
  have hm := first_available_mem _ _ _ hp
  have hle := first_available_rel (· ≤ ·) Nat.le_refl (is_available bindAllOk)
    REGISTERED_PORTS_RANGE registered_pairwise_le p hp 1024 hmem rfl
  have hge := (mem_registered_iff p).mp hm.1
  have hp1024 : p = 1024 := by omega
  rw [hp1024] at hp
  exact hp

theorem lowest_registered_busyLow3 :
    lowest_registered_port bindBusyLow3 = some 1027 := by
  have hmem : (1027 : Nat) ∈ REGISTERED_PORTS_RANGE :=
    (mem_registered_iff 1027).mpr (by omega)
  have hav : is_available bindBusyLow3 1027 = true := by decide
  obtain ⟨p, hp⟩ := first_available_isSome (is_available bindBusyLow3)
    REGISTERED_PORTS_RANGE 1027 hmem hav
  have hm := first_available_mem _ _ _ hp
  have hle := first_available_rel (· ≤ ·) Nat.le_refl (is_available bindBusyLow3)
    REGISTERED_PORTS_RANGE registered_pairwise_le p hp 1027 hmem hav
  have hge := (mem_registered_iff p).mp hm.1
  have hne : ¬(p = 1024 ∨ p = 1025 ∨ p = 1026) := by
    intro hcase
    have := is_available_busyLow3_false p hcase
    rw [hm.2] at this
    exact absurd this (by simp)
  have hp1027 : p = 1027 := by omega
  rw [hp1027] at hp
  exact hp

theorem highest_registered_allOk :
    highest_registered_port bindAllOk = some 49151 := by
  have hmem : (49151 : Nat) ∈ REGISTERED_PORTS_RANGE.reverse := by
    rw [List.mem_reverse]
    exact (mem_registered_iff 49151).mpr (by omega)
  obtain ⟨p, hp⟩ := first_available_isSome (is_available bindAllOk)
    REGISTERED_PORTS_RANGE.reverse 49151 hmem rfl
  have hm := first_available_mem _ _ _ hp
  have hge := first_available_rel (fun a b => b ≤ a) Nat.le_refl
    (is_available bindAllOk) REGISTERED_PORTS_RANGE.reverse
    registered_reverse_pairwise_ge p hp 49151 hmem rfl
  have hle := (mem_registered_iff p).mp (List.mem_reverse.mp hm.1)
  have hp49151 : p = 49151 := by omega
  rw [hp49151] at hp
  exact hp

theorem highest_registered_busyHigh3 :
    highest_registered_port bindBusyHigh3 = some 49148 := by
  have hmem : (49148 : Nat) ∈ REGISTERED_PORTS_RANGE.reverse := by
    rw [List.mem_reverse]
    exact (mem_registered_iff 49148).mpr (by omega)
  have hav : is_available bindBusyHigh3 49148 = true := by decide
  obtain ⟨p, hp⟩ := first_available_isSome (is_available bindBusyHigh3)
    REGISTERED_PORTS_RANGE.reverse 49148 hmem hav
  have hm := first_available_mem _ _ _ hp
  have hge := first_available_rel (fun a b => b ≤ a) Nat.le_refl
    (is_available bindBusyHigh3) REGISTERED_PORTS_RANGE.reverse
    registered_reverse_pairwise_ge p hp 49148 hmem hav
  have hle := (mem_registered_iff p).mp (List.mem_reverse.mp hm.1)
  have hne : ¬(p = 49149 ∨ p = 49150 ∨ p = 49151) := by
    intro hcase
    have := is_available_busyHigh3_false p hcase
    rw [hm.2] at this
    exact absurd this (by simp)
  have hp49148 : p = 49148 := by omega
  rw [hp49148] at hp
  exact hp

theorem lowest_n_registered_allBusy_one :
    lowest_n_registered_ports bindAllBusy 1 = .error (.NotEnoughPorts 1 0) := by
  have hc : REGISTERED_PORTS_RANGE.countP
      (fun port => (bindAllBusy port).isOk) = 0 := by
    simp [bindAllBusy, Except.isOk, Except.toBool]
  have h := collect_n_ports_not_enough (fun port => (bindAllBusy port).isOk) 1
    REGISTERED_PORTS_RANGE []
    (by simp only [List.length_nil, Nat.zero_add, hc]; omega)
  rw [hc] at h
  simp only [List.length_nil, Nat.zero_add] at h
  unfold lowest_n_registered_ports
  exact h

end Dynaport

namespace Dynaport

/-! ### Claim theorems -/

/-- C1: claimed, if the range holds at least `count` available ports then
`lowest_n_registered_ports count` returns `Ok` of the `count` smallest
available ports, including when the `count`-th available port is the last
port of the range.  The code refutes the boundary case: with only port 49151
(the last registered port) free, `lowest_n_registered_ports 1` pushes 49151
in the final iteration, never re-checks the length, and falls through to
`Err(NotEnoughPorts { wanted: 1, got: 1 })` instead of `Ok [49151]`. -/
theorem C1_lowest_n_ports_boundary_bug :
    lowest_n_registered_ports bindOnly49151 1 =
      .error (.NotEnoughPorts 1 1) := by
  have hsplit : REGISTERED_PORTS_RANGE = List.range' 1024 48127 ++ [49151] := by
    unfold REGISTERED_PORTS_RANGE
    have h := List.range'_1_concat 1024 48127
    norm_num at h
    exact h
  unfold lowest_n_registered_ports
  rw [hsplit]
  refine collect_n_ports_last_exact _ 1 49151 (by decide) _ [] rfl ?_
  intro p hp
  rw [List.mem_range'_1] at hp
  simp [bindOnly49151, show p ≠ 49151 by omega, Except.isOk, Except.toBool]

/-- C2: claimed, if the range holds at least `count` available ports then
`highest_n_registered_ports count` returns `Ok` of the `count` largest
available ports.  The code refutes the boundary case: with only port 1024
(the last port of the descending scan) free, `highest_n_registered_ports 1`
pushes 1024 in the final iteration and falls through to
`Err(NotEnoughPorts { wanted: 1, got: 1 })` instead of `Ok [1024]`. -/
theorem C2_highest_n_ports_boundary_bug :
    highest_n_registered_ports bindOnly1024 1 =
      .error (.NotEnoughPorts 1 1) := by
  have hsplit : REGISTERED_PORTS_RANGE.reverse
      = (List.range' 1025 48127).reverse ++ [1024] := by
    unfold REGISTERED_PORTS_RANGE
    have h1 : List.range' 1024 48128 = 1024 :: List.range' 1025 48127 := by
      have h := List.range'_succ 1024 48127 1
      norm_num at h
      exact h
    rw [h1, List.reverse_cons]
  unfold highest_n_registered_ports
  rw [hsplit]
  refine collect_n_ports_last_exact _ 1 1024 (by decide) _ [] rfl ?_
  intro p hp
  rw [List.mem_reverse, List.mem_range'_1] at hp
  simp [bindOnly1024, show p ≠ 1024 by omega, Except.isOk, Except.toBool]

/-- C3: with `count = 0`, each of the four N-port queries returns `Ok []`
immediately, and its probe trace is empty: no bind is attempted on any
candidate port, under every availability state `bind`. -/
theorem C3_count_zero_no_probe (bind : Nat → Except String Unit) :
    lowest_n_registered_ports bind 0 = .ok [] ∧
    highest_n_registered_ports bind 0 = .ok [] ∧
    lowest_n_dynamic_ports bind 0 = .ok [] ∧
    highest_n_dynamic_ports bind 0 = .ok [] ∧
    lowest_n_registered_ports_probes bind 0 = [] ∧
    highest_n_registered_ports_probes bind 0 = [] ∧
    lowest_n_dynamic_ports_probes bind 0 = [] ∧
    highest_n_dynamic_ports_probes bind 0 = [] := by
  refine ⟨collect_n_ports_zero _ _ registered_ne_nil,
    collect_n_ports_zero _ _ ?_,
    collect_n_ports_zero _ _ dynamic_ne_nil,
    collect_n_ports_zero _ _ ?_,
    collect_n_ports_probes_zero _ _,
    collect_n_ports_probes_zero _ _,
    collect_n_ports_probes_zero _ _,
    collect_n_ports_probes_zero _ _⟩
  · intro h
    exact registered_ne_nil (List.reverse_eq_nil_iff.mp h)
  · intro h
    exact dynamic_ne_nil (List.reverse_eq_nil_iff.mp h)

/-- C4: when `count` exceeds the number of available ports of the range
(counted by `countP`), every N-port query returns
`Err(NotEnoughPorts { wanted, got })` with `wanted` the requested count and
`got` the number of available ports of the whole range; the case of `count`
exceeding the range size follows since the available count is at most the
range length. -/
theorem C4_not_enough_ports_error (bind : Nat → Except String Unit)
    (n : Nat) :
    (REGISTERED_PORTS_RANGE.countP (fun port => (bind port).isOk) < n →
      lowest_n_registered_ports bind n =
        .error (.NotEnoughPorts n
          (REGISTERED_PORTS_RANGE.countP (fun port => (bind port).isOk))) ∧
      highest_n_registered_ports bind n =
        .error (.NotEnoughPorts n
          (REGISTERED_PORTS_RANGE.countP (fun port => (bind port).isOk)))) ∧
    (DYNAMIC_PORTS_RANGE.countP (fun port => (bind port).isOk) < n →
      lowest_n_dynamic_ports bind n =
        .error (.NotEnoughPorts n
          (DYNAMIC_PORTS_RANGE.countP (fun port => (bind port).isOk))) ∧
      highest_n_dynamic_ports bind n =
        .error (.NotEnoughPorts n
          (DYNAMIC_PORTS_RANGE.countP (fun port => (bind port).isOk)))) := by
  constructor
  · intro h
    constructor
    · unfold lowest_n_registered_ports
      have hh := collect_n_ports_not_enough (fun port => (bind port).isOk) n
        REGISTERED_PORTS_RANGE []
        (by simp only [List.length_nil, Nat.zero_add]; omega)
      simp only [List.length_nil, Nat.zero_add] at hh
      exact hh
    · unfold highest_n_registered_ports
      have hrev : REGISTERED_PORTS_RANGE.reverse.countP
          (fun port => (bind port).isOk)
          = REGISTERED_PORTS_RANGE.countP (fun port => (bind port).isOk) := by
        simp
      have hh := collect_n_ports_not_enough (fun port => (bind port).isOk) n
        REGISTERED_PORTS_RANGE.reverse []
        (by simp only [List.length_nil, Nat.zero_add, hrev]; omega)
      rw [hrev] at hh
      simp only [List.length_nil, Nat.zero_add] at hh
      exact hh
  · intro h
    constructor
    · unfold lowest_n_dynamic_ports
      have hh := collect_n_ports_not_enough (fun port => (bind port).isOk) n
        DYNAMIC_PORTS_RANGE []
        (by simp only [List.length_nil, Nat.zero_add]; omega)
      simp only [List.length_nil, Nat.zero_add] at hh
      exact hh
    · unfold highest_n_dynamic_ports
      have hrev : DYNAMIC_PORTS_RANGE.reverse.countP
          (fun port => (bind port).isOk)
          = DYNAMIC_PORTS_RANGE.countP (fun port => (bind port).isOk) := by
        simp
      have hh := collect_n_ports_not_enough (fun port => (bind port).isOk) n
        DYNAMIC_PORTS_RANGE.reverse []
        (by simp only [List.length_nil, Nat.zero_add, hrev]; omega)
      rw [hrev] at hh
      simp only [List.length_nil, Nat.zero_add] at hh
      exact hh

/-- Witness for C4 at the concrete state "every port busy", `count = 1`. -/
theorem C4_not_enough_ports_error_witness :
    lowest_n_registered_ports bindAllBusy 1 =
      .error (.NotEnoughPorts 1 0) := by
  have hc : REGISTERED_PORTS_RANGE.countP
      (fun port => (bindAllBusy port).isOk) = 0 := by
    simp [bindAllBusy, Except.isOk, Except.toBool]
  have h := (C4_not_enough_ports_error bindAllBusy 1).1 (by rw [hc]; omega)
  rw [hc] at h
  exact h.1

/-- C5: `lowest_registered_port` (resp. `lowest_dynamic_port`) returns some
minimum available port of its range, none exactly when no port of the range
is available; concretely it returns 1024 when everything is free and 1027
when exactly 1024-1026 are busy. -/
theorem C5_lowest_port_spec (bind : Nat → Except String Unit) :
    (∀ p, lowest_registered_port bind = some p →
      p ∈ REGISTERED_PORTS_RANGE ∧ is_available bind p = true ∧
        ∀ q ∈ REGISTERED_PORTS_RANGE, is_available bind q = true → p ≤ q) ∧
    (lowest_registered_port bind = none ↔
      ∀ p ∈ REGISTERED_PORTS_RANGE, is_available bind p = false) ∧
    (∀ p, lowest_dynamic_port bind = some p →
      p ∈ DYNAMIC_PORTS_RANGE ∧ is_available bind p = true ∧
        ∀ q ∈ DYNAMIC_PORTS_RANGE, is_available bind q = true → p ≤ q) ∧
    (lowest_dynamic_port bind = none ↔
      ∀ p ∈ DYNAMIC_PORTS_RANGE, is_available bind p = false) ∧
    lowest_registered_port bindAllOk = some 1024 ∧
    lowest_registered_port bindBusyLow3 = some 1027 := by
  refine ⟨?_, ?_, ?_, ?_, lowest_registered_allOk, lowest_registered_busyLow3⟩
  · intro p hp
    unfold lowest_registered_port at hp
    have hm := first_available_mem _ _ _ hp
    exact ⟨hm.1, hm.2, fun q hq hav => first_available_rel (· ≤ ·)
      Nat.le_refl _ _ registered_pairwise_le p hp q hq hav⟩
  · unfold lowest_registered_port
    exact first_available_eq_none_iff _ _
  · intro p hp
    unfold lowest_dynamic_port at hp
    have hm := first_available_mem _ _ _ hp
    exact ⟨hm.1, hm.2, fun q hq hav => first_available_rel (· ≤ ·)
      Nat.le_refl _ _ dynamic_pairwise_le p hp q hq hav⟩
  · unfold lowest_dynamic_port
    exact first_available_eq_none_iff _ _

/-- Witness for C5 at the concrete state "nothing busy". -/
theorem C5_lowest_port_spec_witness :
    lowest_registered_port bindAllOk = some 1024 ∧
    1024 ∈ REGISTERED_PORTS_RANGE :=
  ⟨lowest_registered_allOk,
    ((C5_lowest_port_spec bindAllOk).1 1024 lowest_registered_allOk).1⟩

/-- C6: `highest_registered_port` (resp. `highest_dynamic_port`) returns some
maximum available port of its range, none exactly when no port of the range
is available; concretely it returns 49151 when everything is free and 49148
when exactly 49149-49151 are busy. -/
theorem C6_highest_port_spec (bind : Nat → Except String Unit) :
    (∀ p, highest_registered_port bind = some p →
      p ∈ REGISTERED_PORTS_RANGE ∧ is_available bind p = true ∧
        ∀ q ∈ REGISTERED_PORTS_RANGE, is_available bind q = true → q ≤ p) ∧
    (highest_registered_port bind = none ↔
      ∀ p ∈ REGISTERED_PORTS_RANGE, is_available bind p = false) ∧
    (∀ p, highest_dynamic_port bind = some p →
      p ∈ DYNAMIC_PORTS_RANGE ∧ is_available bind p = true ∧
        ∀ q ∈ DYNAMIC_PORTS_RANGE, is_available bind q = true → q ≤ p) ∧
    (highest_dynamic_port bind = none ↔
      ∀ p ∈ DYNAMIC_PORTS_RANGE, is_available bind p = false) ∧
    highest_registered_port bindAllOk = some 49151 ∧
    highest_registered_port bindBusyHigh3 = some 49148 := by
  refine ⟨?_, ?_, ?_, ?_, highest_registered_allOk,
    highest_registered_busyHigh3⟩
  · intro p hp
    unfold highest_registered_port at hp
    have hm := first_available_mem _ _ _ hp
    refine ⟨List.mem_reverse.mp hm.1, hm.2, fun q hq hav => ?_⟩
    exact first_available_rel (fun a b => b ≤ a) Nat.le_refl _ _
      registered_reverse_pairwise_ge p hp q (List.mem_reverse.mpr hq) hav
  · unfold highest_registered_port
    rw [first_available_eq_none_iff]
    exact ⟨fun h p hp => h p (List.mem_reverse.mpr hp),
      fun h p hp => h p (List.mem_reverse.mp hp)⟩
  · intro p hp
    unfold highest_dynamic_port at hp
    have hm := first_available_mem _ _ _ hp
    refine ⟨List.mem_reverse.mp hm.1, hm.2, fun q hq hav => ?_⟩
    exact first_available_rel (fun a b => b ≤ a) Nat.le_refl _ _
      dynamic_reverse_pairwise_ge p hp q (List.mem_reverse.mpr hq) hav
  · unfold highest_dynamic_port
    rw [first_available_eq_none_iff]
    exact ⟨fun h p hp => h p (List.mem_reverse.mpr hp),
      fun h p hp => h p (List.mem_reverse.mp hp)⟩

/-- Witness for C6 at the concrete state "nothing busy". -/
theorem C6_highest_port_spec_witness :
    highest_registered_port bindAllOk = some 49151 ∧
    49151 ∈ REGISTERED_PORTS_RANGE :=
  ⟨highest_registered_allOk,
    ((C6_highest_port_spec bindAllOk).1 49151 highest_registered_allOk).1⟩

/-- C7: for every permutation of the range produced by the shuffle,
`random_registered_port` (resp. `random_dynamic_port`) returns some port that
lies inside the range's bounds and is available whenever at least one port of
the range is available, and returns none exactly when no port of the range is
available. -/
theorem C7_random_port_spec (bind : Nat → Except String Unit)
    (shuffledR shuffledD : List Nat)
    (hR : shuffledR.Perm REGISTERED_PORTS_RANGE)
    (hD : shuffledD.Perm DYNAMIC_PORTS_RANGE) :
    ((∃ q ∈ REGISTERED_PORTS_RANGE, is_available bind q = true) →
      ∃ p, random_registered_port bind shuffledR = some p ∧
        1024 ≤ p ∧ p ≤ 49151 ∧ is_available bind p = true) ∧
    (random_registered_port bind shuffledR = none ↔
      ∀ p ∈ REGISTERED_PORTS_RANGE, is_available bind p = false) ∧
    ((∃ q ∈ DYNAMIC_PORTS_RANGE, is_available bind q = true) →
      ∃ p, random_dynamic_port bind shuffledD = some p ∧
        49152 ≤ p ∧ p ≤ 65535 ∧ is_available bind p = true) ∧
    (random_dynamic_port bind shuffledD = none ↔
      ∀ p ∈ DYNAMIC_PORTS_RANGE, is_available bind p = false) := by
  refine ⟨?_, ?_, ?_, ?_⟩
  · rintro ⟨q, hq, hav⟩
    obtain ⟨p, hp⟩ := first_available_isSome (is_available bind) shuffledR q
      (hR.mem_iff.mpr hq) hav
    have hm := first_available_mem _ _ _ hp
    have hbounds := (mem_registered_iff p).mp (hR.mem_iff.mp hm.1)
    exact ⟨p, hp, hbounds.1, hbounds.2, hm.2⟩
  · unfold random_registered_port
    rw [first_available_eq_none_iff]
    exact ⟨fun h p hp => h p (hR.mem_iff.mpr hp),
      fun h p hp => h p (hR.mem_iff.mp hp)⟩
  · rintro ⟨q, hq, hav⟩
    obtain ⟨p, hp⟩ := first_available_isSome (is_available bind) shuffledD q
      (hD.mem_iff.mpr hq) hav
    have hm := first_available_mem _ _ _ hp
    have hbounds := (mem_dynamic_iff p).mp (hD.mem_iff.mp hm.1)
    exact ⟨p, hp, hbounds.1, hbounds.2, hm.2⟩
  · unfold random_dynamic_port
    rw [first_available_eq_none_iff]
    exact ⟨fun h p hp => h p (hD.mem_iff.mpr hp),
      fun h p hp => h p (hD.mem_iff.mp hp)⟩

/-- Witness for C7 at the identity permutation, with every port busy. -/
theorem C7_random_port_spec_witness :
    random_registered_port bindAllBusy REGISTERED_PORTS_RANGE = none :=
  (C7_random_port_spec bindAllBusy REGISTERED_PORTS_RANGE DYNAMIC_PORTS_RANGE
    (List.Perm.refl _) (List.Perm.refl _)).2.1.mpr (fun _ _ => rfl)

/-- C8: the six single-port queries return an `Option` that is none exactly
when no port of the range is available, and a failing bind on an individual
candidate only marks that candidate unavailable (no distinct error value
exists or escapes). -/
theorem C8_single_port_never_error (bind : Nat → Except String Unit)
    (shuffledR shuffledD : List Nat)
    (hR : shuffledR.Perm REGISTERED_PORTS_RANGE)
    (hD : shuffledD.Perm DYNAMIC_PORTS_RANGE) :
    (∀ port e, bind port = .error e → is_available bind port = false) ∧
    (random_registered_port bind shuffledR = none ↔
      ∀ p ∈ REGISTERED_PORTS_RANGE, is_available bind p = false) ∧
    (lowest_registered_port bind = none ↔
      ∀ p ∈ REGISTERED_PORTS_RANGE, is_available bind p = false) ∧
    (highest_registered_port bind = none ↔
      ∀ p ∈ REGISTERED_PORTS_RANGE, is_available bind p = false) ∧
    (random_dynamic_port bind shuffledD = none ↔
      ∀ p ∈ DYNAMIC_PORTS_RANGE, is_available bind p = false) ∧
    (lowest_dynamic_port bind = none ↔
      ∀ p ∈ DYNAMIC_PORTS_RANGE, is_available bind p = false) ∧
    (highest_dynamic_port bind = none ↔
      ∀ p ∈ DYNAMIC_PORTS_RANGE, is_available bind p = false) := by
  refine ⟨?_, ?_, ?_, ?_, ?_, ?_, ?_⟩
  · intro port e h
    unfold is_available
    rw [h]
    rfl
  · unfold random_registered_port
    rw [first_available_eq_none_iff]
    exact ⟨fun h p hp => h p (hR.mem_iff.mpr hp),
      fun h p hp => h p (hR.mem_iff.mp hp)⟩
  · unfold lowest_registered_port
    exact first_available_eq_none_iff _ _
  · unfold highest_registered_port
    rw [first_available_eq_none_iff]
    exact ⟨fun h p hp => h p (List.mem_reverse.mpr hp),
      fun h p hp => h p (List.mem_reverse.mp hp)⟩
  · unfold random_dynamic_port
    rw [first_available_eq_none_iff]
    exact ⟨fun h p hp => h p (hD.mem_iff.mpr hp),
      fun h p hp => h p (hD.mem_iff.mp hp)⟩
  · unfold lowest_dynamic_port
    exact first_available_eq_none_iff _ _
  · unfold highest_dynamic_port
    rw [first_available_eq_none_iff]
    exact ⟨fun h p hp => h p (List.mem_reverse.mpr hp),
      fun h p hp => h p (List.mem_reverse.mp hp)⟩

/-- Witness for C8 at the identity permutation, with every port busy. -/
theorem C8_single_port_never_error_witness :
    lowest_registered_port bindAllBusy = none :=
  (C8_single_port_never_error bindAllBusy REGISTERED_PORTS_RANGE
    DYNAMIC_PORTS_RANGE (List.Perm.refl _)
    (List.Perm.refl _)).2.2.1.mpr (fun _ _ => rfl)

/-- C9: the eight deterministic queries depend only on the availability of
each port: two calls made against system states that agree on the outcome of
every bind (no intervening change in port occupancy) return equal results. -/
theorem C9_deterministic_idempotence (bind1 bind2 : Nat → Except String Unit)
    (n : Nat) (hsame : ∀ port, bind1 port = bind2 port) :
    lowest_registered_port bind1 = lowest_registered_port bind2 ∧
    highest_registered_port bind1 = highest_registered_port bind2 ∧
    lowest_dynamic_port bind1 = lowest_dynamic_port bind2 ∧
    highest_dynamic_port bind1 = highest_dynamic_port bind2 ∧
    lowest_n_registered_ports bind1 n = lowest_n_registered_ports bind2 n ∧
    highest_n_registered_ports bind1 n = highest_n_registered_ports bind2 n ∧
    lowest_n_dynamic_ports bind1 n = lowest_n_dynamic_ports bind2 n ∧
    highest_n_dynamic_ports bind1 n = highest_n_dynamic_ports bind2 n := by
  have h : bind1 = bind2 := funext hsame
  subst h
  exact ⟨rfl, rfl, rfl, rfl, rfl, rfl, rfl, rfl⟩

/-- Witness for C9 at two syntactically identical system states. -/
theorem C9_deterministic_idempotence_witness :
    lowest_registered_port bindAllOk = lowest_registered_port bindAllOk :=
  (C9_deterministic_idempotence bindAllOk bindAllOk 0 (fun _ => rfl)).1

/-- C10: whenever an N-port query returns `Err(NotEnoughPorts)`, the reported
`got` never exceeds `wanted`: the accumulator stops growing at
`number_of_ports`. -/
theorem C10_got_le_wanted (bind : Nat → Except String Unit) (n w g : Nat) :
    (lowest_n_registered_ports bind n = .error (.NotEnoughPorts w g) →
      g ≤ w) ∧
    (highest_n_registered_ports bind n = .error (.NotEnoughPorts w g) →
      g ≤ w) ∧
    (lowest_n_dynamic_ports bind n = .error (.NotEnoughPorts w g) →
      g ≤ w) ∧
    (highest_n_dynamic_ports bind n = .error (.NotEnoughPorts w g) →
      g ≤ w) := by
  refine ⟨fun h => ?_, fun h => ?_, fun h => ?_, fun h => ?_⟩
  · exact collect_n_ports_got_le _ n _ [] (by simp) w g h
  · exact collect_n_ports_got_le _ n _ [] (by simp) w g h
  · exact collect_n_ports_got_le _ n _ [] (by simp) w g h
  · exact collect_n_ports_got_le _ n _ [] (by simp) w g h

/-- Witness for C10 at the concrete state "every port busy", `count = 1`. -/
theorem C10_got_le_wanted_witness :
    lowest_n_registered_ports bindAllBusy 1 =
      .error (.NotEnoughPorts 1 0) ∧ (0 : Nat) ≤ 1 :=
  ⟨lowest_n_registered_allBusy_one,
    (C10_got_le_wanted bindAllBusy 1 1 0).1 lowest_n_registered_allBusy_one⟩

end Dynaport
